import Mathlib

/-! Shallow embedding of the asynchronous job tracker of the
lambda-hackathon repository: the client service in
nextjs-integration/README-Generator-Service.ts (checkStatus,
waitForCompletion), the React polling component embedded in
DEPLOYMENT.md (pollStatus, validateGitHubUrl), the submission handler
of the advanced generator component (handleSubmit), and the history
materializer of the preview page (fetchFromHistory).

Modelling conventions: network responses are inputs (a function from
the request index to the observed response); the JSON body of a status
response is modelled post-decoding; durations are in milliseconds,
with the local timeout as an Int (the source compares a wall-clock
difference against it) and the poll interval as a Nat required to be
positive (at a non-positive interval the source loop never advances
its idealized clock). Each loop iteration issues exactly one status
request; the second component of a loop result counts those requests. -/

inductive StatusTag where
  | running
  | succeeded
  | failed
  | timedOut
deriving DecidableEq

structure Phase3Analysis where
  project_type : String
  confidence : Rat
  primary_language : String
  frameworks : List String
  processing_time : Rat
deriving DecidableEq

structure S3Location where
  bucket : String
  key : String
deriving DecidableEq

structure READMEGeneration where
  readme_length : Nat
  s3_location : S3Location
  generation_timestamp : String
deriving DecidableEq

structure CompleteResult where
  success : Bool
  message : String
  phase3_analysis : Phase3Analysis
  readme_generation : READMEGeneration
  pipeline_features : List String
  github_url : String
  timestamp : String
deriving DecidableEq

/-- ExecutionStatus as returned by checkStatus: the status tag of the
source union type (RUNNING, SUCCEEDED, FAILED, TIMED_OUT — the source
type has no ABORTED member), the decoded output payload when present,
and the remote error message when present. -/
structure ExecutionStatus where
  status : StatusTag
  output : Option CompleteResult
  error : Option String
deriving DecidableEq

/-- Observed outcome of one status request at the fetch level: either
the fetch promise rejects (network error), or an HTTP response arrives
with an ok flag (true exactly for 2xx), a numeric status code and a
decoded body. -/
inductive FetchResult where
  | networkError (msg : String)
  | response (ok : Bool) (statusCode : Nat) (body : ExecutionStatus)
deriving DecidableEq

/-- Outcome of a polling loop: the loop either returns a
CompleteResult or throws an Error with the given message. -/
inductive PollOutcome where
  | success (result : CompleteResult)
  | thrown (msg : String)
deriving DecidableEq

/-- checkStatus from README-Generator-Service.ts: a network error or a
non-ok HTTP response is rethrown (for a non-ok response the thrown
message interpolates the HTTP status code); an ok response yields the
ExecutionStatus built from the decoded body. The executionArn argument
only feeds the request URL (and a dead local variable) and does not
affect the produced value. -/
def checkStatus (executionArn : String) (r : FetchResult) : Except String ExecutionStatus :=
  match r with
  | .networkError msg => .error msg
  | .response ok code body =>
    if ok then .ok ⟨body.status, body.output, body.error⟩
    else .error ("Status check failed: " ++ toString code)

/-- JavaScript string disjunction x || d: undefined and the empty
string are falsy and give the default. -/
def jsOrElse (x : Option String) (d : String) : String :=
  match x with
  | none => d
  | some s => if s = "" then d else s

/-- Default timeoutMs of waitForCompletion (2 minutes). -/
def defaultTimeoutMs : Int := 120000

/-- Default pollIntervalMs of waitForCompletion (5 seconds). -/
def defaultPollIntervalMs : Nat := 5000

/-- maxAttempts of the pollStatus component (24, two minutes of
5-second intervals). -/
def maxAttempts : Nat := 24

/-- Loop body of waitForCompletion. The source loops while the elapsed
wall-clock time is below timeoutMs; in the idealized clock the elapsed
time before iteration n is n * intervalMs (each earlier iteration
slept one interval). Within the budget the iteration issues one status
request; SUCCEEDED with a present output returns it, FAILED and
TIMED_OUT throw, every other case (RUNNING, and SUCCEEDED with a
missing output) sleeps and loops; a checkStatus exception propagates
out of the loop. Exhausting the budget throws the local polling
timeout. -/
def waitLoop (poll : Nat → FetchResult) (executionArn : String) (timeoutMs : Int)
    (intervalMs : Nat) (hpos : 0 < intervalMs) (n : Nat) : PollOutcome × Nat :=
  if h : ((n * intervalMs : Nat) : Int) < timeoutMs then
    match checkStatus executionArn (poll n) with
    | .error e => (.thrown e, 1)
    | .ok st =>
      match st.status, st.output with
      | .succeeded, some out => (.success out, 1)
      | .failed, _ => (.thrown ("Pipeline failed: " ++ jsOrElse st.error "Unknown error"), 1)
      | .timedOut, _ => (.thrown "Pipeline execution timed out", 1)
      | _, _ =>
        ((waitLoop poll executionArn timeoutMs intervalMs hpos (n + 1)).1,
         (waitLoop poll executionArn timeoutMs intervalMs hpos (n + 1)).2 + 1)
  else (.thrown "Polling timeout reached", 0)
termination_by (timeoutMs - ((n * intervalMs : Nat) : Int)).toNat
decreasing_by
  have hs : (n + 1) * intervalMs = n * intervalMs + intervalMs := by ring
  rw [hs]
  push_cast
  push_cast at h
  omega

/-- waitForCompletion from README-Generator-Service.ts, starting the
loop at elapsed time zero. -/
def waitForCompletion (poll : Nat → FetchResult) (executionArn : String)
    (timeoutMs : Int) (intervalMs : Nat) (hpos : 0 < intervalMs) : PollOutcome × Nat :=
  waitLoop poll executionArn timeoutMs intervalMs hpos 0

/-- pollStatus from the READMEGenerator component: an attempt counter
starting at 0 is checked against maxAttempts before each request and
incremented before the status call; SUCCEEDED with a present output
delivers the result, FAILED throws, and every other status (RUNNING,
TIMED_OUT, SUCCEEDED with missing output) schedules another poll. -/
def pollStatus (poll : Nat → FetchResult) (executionArn : String)
    (maxA : Nat) (attempts : Nat) : PollOutcome × Nat :=
  if h : attempts ≥ maxA then (.thrown "Generation timeout - please try again", 0)
  else
    match checkStatus executionArn (poll attempts) with
    | .error e => (.thrown e, 1)
    | .ok st =>
      match st.status, st.output with
      | .succeeded, some out => (.success out, 1)
      | .failed, _ => (.thrown (jsOrElse st.error "Pipeline execution failed"), 1)
      | _, _ =>
        ((pollStatus poll executionArn maxA (attempts + 1)).1,
         (pollStatus poll executionArn maxA (attempts + 1)).2 + 1)
termination_by maxA - attempts
decreasing_by
  omega

/-- A response that the waitForCompletion loop follows with another
request: an ok response whose status is RUNNING, or SUCCEEDED with a
missing output payload. -/
def respContinues (r : FetchResult) : Bool :=
  match r with
  | .networkError _ => false
  | .response ok _ body =>
    ok && (body.status == .running || (body.status == .succeeded && body.output.isNone))

/-- An ok response whose status is RUNNING (the non-terminal state of
the spec). -/
def respRunning (r : FetchResult) : Bool :=
  match r with
  | .networkError _ => false
  | .response ok _ body => ok && body.status == .running

/-- An ok response whose status is SUCCEEDED carrying the given
output payload. -/
def respSucceeds (r : FetchResult) (p : CompleteResult) : Prop :=
  ∃ code err, r = .response true code ⟨.succeeded, some p, err⟩

theorem waitLoop_budget (poll : Nat → FetchResult) (arn : String) (timeoutMs : Int)
    (intervalMs : Nat) (hpos : 0 < intervalMs) (n : Nat)
    (hge : timeoutMs ≤ ((n * intervalMs : Nat) : Int)) :
    waitLoop poll arn timeoutMs intervalMs hpos n = (.thrown "Polling timeout reached", 0) := by
  unfold waitLoop
  rw [dif_neg (by omega)]

theorem waitLoop_error (poll : Nat → FetchResult) (arn : String) (timeoutMs : Int)
    (intervalMs : Nat) (hpos : 0 < intervalMs) (n : Nat) (e : String)
    (hlt : ((n * intervalMs : Nat) : Int) < timeoutMs)
    (hresp : checkStatus arn (poll n) = .error e) :
    waitLoop poll arn timeoutMs intervalMs hpos n = (.thrown e, 1) := by
  unfold waitLoop
  rw [dif_pos hlt, hresp]

theorem waitLoop_success (poll : Nat → FetchResult) (arn : String) (timeoutMs : Int)
    (intervalMs : Nat) (hpos : 0 < intervalMs) (n : Nat) (code : Nat)
    (p : CompleteResult) (err : Option String)
    (hlt : ((n * intervalMs : Nat) : Int) < timeoutMs)
    (hresp : poll n = .response true code ⟨.succeeded, some p, err⟩) :
    waitLoop poll arn timeoutMs intervalMs hpos n = (.success p, 1) := by
  unfold waitLoop
  rw [dif_pos hlt, hresp]
  simp [checkStatus]

theorem waitLoop_failed (poll : Nat → FetchResult) (arn : String) (timeoutMs : Int)
    (intervalMs : Nat) (hpos : 0 < intervalMs) (n : Nat) (code : Nat)
    (out : Option CompleteResult) (err : Option String)
    (hlt : ((n * intervalMs : Nat) : Int) < timeoutMs)
    (hresp : poll n = .response true code ⟨.failed, out, err⟩) :
    waitLoop poll arn timeoutMs intervalMs hpos n =
      (.thrown ("Pipeline failed: " ++ jsOrElse err "Unknown error"), 1) := by
  unfold waitLoop
  rw [dif_pos hlt, hresp]
  cases out <;> simp [checkStatus]

theorem waitLoop_timedOut (poll : Nat → FetchResult) (arn : String) (timeoutMs : Int)
    (intervalMs : Nat) (hpos : 0 < intervalMs) (n : Nat) (code : Nat)
    (out : Option CompleteResult) (err : Option String)
    (hlt : ((n * intervalMs : Nat) : Int) < timeoutMs)
    (hresp : poll n = .response true code ⟨.timedOut, out, err⟩) :
    waitLoop poll arn timeoutMs intervalMs hpos n =
      (.thrown "Pipeline execution timed out", 1) := by
  unfold waitLoop
  rw [dif_pos hlt, hresp]
  cases out <;> simp [checkStatus]

theorem waitLoop_continue (poll : Nat → FetchResult) (arn : String) (timeoutMs : Int)
    (intervalMs : Nat) (hpos : 0 < intervalMs) (n : Nat)
    (hlt : ((n * intervalMs : Nat) : Int) < timeoutMs)
    (hcont : respContinues (poll n) = true) :
    waitLoop poll arn timeoutMs intervalMs hpos n =
      ((waitLoop poll arn timeoutMs intervalMs hpos (n + 1)).1,
       (waitLoop poll arn timeoutMs intervalMs hpos (n + 1)).2 + 1) := by
  conv_lhs => unfold waitLoop
  rw [dif_pos hlt]
  rcases hr : poll n with m | ⟨ok, code, body⟩
  · rw [hr] at hcont
    simp [respContinues] at hcont
  · rw [hr] at hcont
    simp only [respContinues, Bool.and_eq_true, Bool.or_eq_true, beq_iff_eq,
      Option.isNone_iff_eq_none] at hcont
    obtain ⟨hok, hbody⟩ := hcont
    subst hok
    rcases body with ⟨st, out, err⟩
    rcases hbody with hrun | ⟨hsucc, hnone⟩
    · simp only at hrun
      subst hrun
      cases out <;> simp [checkStatus]
    · simp only at hsucc hnone
      subst hsucc
      subst hnone
      simp [checkStatus]

/-- A response that the pollStatus loop follows with another request:
an ok response that is neither FAILED nor SUCCEEDED with a present
output (so RUNNING, TIMED_OUT, and SUCCEEDED with missing output all
continue). -/
def respContinuesPoll (r : FetchResult) : Bool :=
  match r with
  | .networkError _ => false
  | .response ok _ body =>
    ok && !(body.status == .failed) && !(body.status == .succeeded && body.output.isSome)

theorem respRunning_continues (r : FetchResult) (h : respRunning r = true) :
    respContinues r = true := by
  rcases r with m | ⟨ok, code, body⟩
  · simp [respRunning] at h
  · simp only [respRunning, Bool.and_eq_true, beq_iff_eq] at h
    simp [respContinues, h.1, h.2]

theorem respRunning_continuesPoll (r : FetchResult) (h : respRunning r = true) :
    respContinuesPoll r = true := by
  rcases r with m | ⟨ok, code, body⟩
  · simp [respRunning] at h
  · simp only [respRunning, Bool.and_eq_true, beq_iff_eq] at h
    simp [respContinuesPoll, h.1, h.2]

theorem pollStatus_budget (poll : Nat → FetchResult) (arn : String) (maxA : Nat)
    (attempts : Nat) (hge : attempts ≥ maxA) :
    pollStatus poll arn maxA attempts = (.thrown "Generation timeout - please try again", 0) := by
  unfold pollStatus
  rw [dif_pos hge]

theorem pollStatus_success (poll : Nat → FetchResult) (arn : String) (maxA : Nat)
    (attempts : Nat) (code : Nat) (p : CompleteResult) (err : Option String)
    (hlt : attempts < maxA)
    (hresp : poll attempts = .response true code ⟨.succeeded, some p, err⟩) :
    pollStatus poll arn maxA attempts = (.success p, 1) := by
  unfold pollStatus
  rw [dif_neg (by omega), hresp]
  simp [checkStatus]

theorem pollStatus_continue (poll : Nat → FetchResult) (arn : String) (maxA : Nat)
    (attempts : Nat) (hlt : attempts < maxA)
    (hcont : respContinuesPoll (poll attempts) = true) :
    pollStatus poll arn maxA attempts =
      ((pollStatus poll arn maxA (attempts + 1)).1,
       (pollStatus poll arn maxA (attempts + 1)).2 + 1) := by
  conv_lhs => unfold pollStatus
  rw [dif_neg (by omega)]
  rcases hr : poll attempts with m | ⟨ok, code, body⟩
  · rw [hr] at hcont
    simp [respContinuesPoll] at hcont
  · rw [hr] at hcont
    simp only [respContinuesPoll, Bool.and_eq_true, Bool.not_eq_true', beq_eq_false_iff_ne,
      ne_eq, Bool.and_eq_false_imp, beq_iff_eq] at hcont
    obtain ⟨⟨hok, hnf⟩, hns⟩ := hcont
    subst hok
    rcases body with ⟨st, out, err⟩
    simp only at hnf hns
    cases st
    · cases out <;> simp [checkStatus]
    · have : out.isSome = false := hns rfl
      rcases out with _ | v
      · simp [checkStatus]
      · simp at this
    · exact absurd rfl hnf
    · cases out <;> simp [checkStatus]

theorem defaultIntervalPos : 0 < defaultPollIntervalMs := by
  norm_num [defaultPollIntervalMs]

theorem waitCond (n : Nat) :
    (((n * defaultPollIntervalMs : Nat) : Int) < defaultTimeoutMs) ↔ n < maxAttempts := by
  simp only [defaultTimeoutMs, defaultPollIntervalMs, maxAttempts]
  push_cast
  omega

theorem waitLoop_stop_count (poll : Nat → FetchResult) (arn : String) (timeoutMs : Int)
    (intervalMs : Nat) (hpos : 0 < intervalMs) (n : Nat)
    (hlt : ((n * intervalMs : Nat) : Int) < timeoutMs)
    (hstop : respContinues (poll n) = false) :
    (waitLoop poll arn timeoutMs intervalMs hpos n).2 = 1 := by
  conv_lhs => unfold waitLoop
  rw [dif_pos hlt]
  rcases hr : poll n with m | ⟨ok, code, body⟩
  · simp [checkStatus]
  · rw [hr] at hstop
    rcases body with ⟨st, out, err⟩
    rcases ok with _ | _
    · simp [checkStatus]
    · simp only [respContinues, Bool.true_and, Bool.or_eq_false_iff, Bool.and_eq_false_imp,
        beq_iff_eq, beq_eq_false_iff_ne, ne_eq] at hstop
      obtain ⟨hnr, hns⟩ := hstop
      cases st
      · exact absurd rfl hnr
      · have : out.isNone = false := hns rfl
        rcases out with _ | v
        · simp at this
        · simp [checkStatus]
      · cases out <;> simp [checkStatus]
      · cases out <;> simp [checkStatus]

theorem waitLoop_succ_count (poll : Nat → FetchResult) (arn : String)
    (hpos : 0 < defaultPollIntervalMs) (p : CompleteResult) :
    ∀ (j n : Nat), n + j < maxAttempts →
    (∀ i, i < j → respContinues (poll (n + i)) = true) →
    respSucceeds (poll (n + j)) p →
    waitLoop poll arn defaultTimeoutMs defaultPollIntervalMs hpos n = (.success p, j + 1) := by
  intro j
  induction j with
  | zero =>
    intro n hn _ hs
    obtain ⟨code, err, hr⟩ := hs
    exact waitLoop_success poll arn defaultTimeoutMs defaultPollIntervalMs hpos n code p err
      ((waitCond n).2 (by omega)) (by simpa using hr)
  | succ j ih =>
    intro n hn hcont hs
    have hstep := waitLoop_continue poll arn defaultTimeoutMs defaultPollIntervalMs hpos n
      ((waitCond n).2 (by omega)) (by simpa using hcont 0 (by omega))
    have hrec := ih (n + 1) (by omega)
      (fun i hi => by
        have := hcont (i + 1) (by omega)
        simpa [Nat.add_assoc, Nat.add_comm 1 i] using this)
      (by
        have : n + 1 + j = n + (j + 1) := by omega
        rw [this]
        exact hs)
    rw [hstep, hrec]

theorem waitLoop_exhaust (poll : Nat → FetchResult) (arn : String)
    (hpos : 0 < defaultPollIntervalMs) :
    ∀ (d n : Nat), n + d = maxAttempts →
    (∀ i, i < d → respContinues (poll (n + i)) = true) →
    waitLoop poll arn defaultTimeoutMs defaultPollIntervalMs hpos n =
      (.thrown "Polling timeout reached", d) := by
  intro d
  induction d with
  | zero =>
    intro n hn _
    refine waitLoop_budget poll arn defaultTimeoutMs defaultPollIntervalMs hpos n ?_
    have := (waitCond n).1
    by_contra hcon
    push_neg at hcon
    exact absurd (this hcon) (by omega)
  | succ d ih =>
    intro n hn hcont
    have hstep := waitLoop_continue poll arn defaultTimeoutMs defaultPollIntervalMs hpos n
      ((waitCond n).2 (by omega)) (by simpa using hcont 0 (by omega))
    have hrec := ih (n + 1) (by omega)
      (fun i hi => by
        have := hcont (i + 1) (by omega)
        simpa [Nat.add_assoc, Nat.add_comm 1 i] using this)
    rw [hstep, hrec]

theorem waitLoop_requests_continue (poll : Nat → FetchResult) (arn : String)
    (hpos : 0 < defaultPollIntervalMs) :
    ∀ (d n : Nat), maxAttempts - n ≤ d → ∀ j,
    j + 1 < (waitLoop poll arn defaultTimeoutMs defaultPollIntervalMs hpos n).2 →
    respContinues (poll (n + j)) = true := by
  intro d
  induction d with
  | zero =>
    intro n hn j hj
    rw [waitLoop_budget poll arn defaultTimeoutMs defaultPollIntervalMs hpos n
      (by
        have := (waitCond n).1
        by_contra hcon
        push_neg at hcon
        exact absurd (this hcon) (by omega))] at hj
    omega
  | succ d ih =>
    intro n hn j hj
    by_cases hlt : n < maxAttempts
    · by_cases hc : respContinues (poll n) = true
      · rcases j with _ | j
        · exact hc
        · rw [waitLoop_continue poll arn defaultTimeoutMs defaultPollIntervalMs hpos n
            ((waitCond n).2 hlt) hc] at hj
          have := ih (n + 1) (by omega) j (by omega)
          simpa [Nat.add_assoc, Nat.add_comm 1 j] using this
      · rw [Bool.not_eq_true] at hc
        have := waitLoop_stop_count poll arn defaultTimeoutMs defaultPollIntervalMs hpos n
          ((waitCond n).2 hlt) hc
        omega
    · rw [waitLoop_budget poll arn defaultTimeoutMs defaultPollIntervalMs hpos n
        (by
          have := (waitCond n).1
          by_contra hcon
          push_neg at hcon
          exact absurd (this hcon) (by omega))] at hj
      omega

theorem pollStatus_succ_count (poll : Nat → FetchResult) (arn : String) (p : CompleteResult) :
    ∀ (j n : Nat), n + j < maxAttempts →
    (∀ i, i < j → respContinuesPoll (poll (n + i)) = true) →
    respSucceeds (poll (n + j)) p →
    pollStatus poll arn maxAttempts n = (.success p, j + 1) := by
  intro j
  induction j with
  | zero =>
    intro n hn _ hs
    obtain ⟨code, err, hr⟩ := hs
    exact pollStatus_success poll arn maxAttempts n code p err (by omega) (by simpa using hr)
  | succ j ih =>
    intro n hn hcont hs
    have hstep := pollStatus_continue poll arn maxAttempts n (by omega)
      (by simpa using hcont 0 (by omega))
    have hrec := ih (n + 1) (by omega)
      (fun i hi => by
        have := hcont (i + 1) (by omega)
        simpa [Nat.add_assoc, Nat.add_comm 1 i] using this)
      (by
        have : n + 1 + j = n + (j + 1) := by omega
        rw [this]
        exact hs)
    rw [hstep, hrec]

theorem pollStatus_exhaust (poll : Nat → FetchResult) (arn : String) :
    ∀ (d n : Nat), n + d = maxAttempts →
    (∀ i, i < d → respContinuesPoll (poll (n + i)) = true) →
    pollStatus poll arn maxAttempts n =
      (.thrown "Generation timeout - please try again", d) := by
  intro d
  induction d with
  | zero =>
    intro n hn _
    exact pollStatus_budget poll arn maxAttempts n (by omega)
  | succ d ih =>
    intro n hn hcont
    have hstep := pollStatus_continue poll arn maxAttempts n (by omega)
      (by simpa using hcont 0 (by omega))
    have hrec := ih (n + 1) (by omega)
      (fun i hi => by
        have := hcont (i + 1) (by omega)
        simpa [Nat.add_assoc, Nat.add_comm 1 i] using this)
    rw [hstep, hrec]

/-- JavaScript word character, as matched by the character class of
the source regex (ASCII letters, digits and underscore). -/
def isWordChar (c : Char) : Bool := c.isAlpha || c.isDigit || c = '_'

/-- A character of the owner or repo segment class of the source
regex: word characters, hyphen and dot. -/
def isSegmentChar (c : Char) : Bool := isWordChar c || c = '-' || c = '.'

/-- Consume an exact literal from the front of the input, yielding the
remainder. -/
def dropLit : List Char → List Char → Option (List Char)
  | [], rest => some rest
  | _ :: _, [] => none
  | p :: ps, c :: cs => if c = p then dropLit ps cs else none

/-- Match the tail of the source regex after the host prefix: a
nonempty segment, a slash, a nonempty segment, an optional trailing
slash, then end of input. The segment class excludes the slash, so the
greedy deterministic parse is equivalent to the regex. -/
def githubTail (rest : List Char) : Bool :=
  match rest.takeWhile isSegmentChar, rest.dropWhile isSegmentChar with
  | [], _ => false
  | _ :: _, '/' :: rest2 =>
    match rest2.takeWhile isSegmentChar, rest2.dropWhile isSegmentChar with
    | [], _ => false
    | _ :: _, [] => true
    | _ :: _, ['/'] => true
    | _ :: _, _ => false
  | _ :: _, _ => false

/-- validateGitHubUrl: the anchored source regex requiring the literal
https github.com prefix followed by owner and repo segments and an
optional trailing slash. -/
def validateGitHubUrl (url : String) : Bool :=
  match dropLit "https://github.com/".data url.data with
  | none => false
  | some rest => githubTail rest

/-- JavaScript String.trim restricted to ASCII whitespace: drop
whitespace from both ends. -/
def jsTrim (s : List Char) : List Char :=
  ((s.dropWhile Char.isWhitespace).reverse.dropWhile Char.isWhitespace).reverse

def jsTrimStr (s : String) : String := String.mk (jsTrim s.data)

/-- Observable effect of a submission handler: return silently without
any message, reject with a validation error message, or issue exactly
one start request carrying the submitted URL. -/
inductive SubmitAction where
  | silentReturn
  | validationError (message : String)
  | startRequest (github_url : String)
deriving DecidableEq

/-- handleSubmit from the advanced generator component: an input whose
trimmed form is empty returns silently; otherwise the trimmed input is
validated, a failure raises the toast error, and a success submits the
trimmed URL through generateREADME (one start request). -/
def handleSubmit (githubUrl : String) : SubmitAction :=
  if jsTrimStr githubUrl = "" then .silentReturn
  else if validateGitHubUrl (jsTrimStr githubUrl) then .startRequest (jsTrimStr githubUrl)
  else .validationError "Invalid GitHub URL"

/-- handleGenerate from the READMEGenerator component: the raw input
is validated (no trimming); a failure sets the error message, a
success submits the raw URL through generateREADME. -/
def handleGenerate (githubUrl : String) : SubmitAction :=
  if validateGitHubUrl githubUrl then .startRequest githubUrl
  else .validationError "Please enter a valid GitHub repository URL"

/-- Number of start requests a submission action issues. -/
def startRequests : SubmitAction → Nat
  | .startRequest _ => 1
  | _ => 0

/-- History record as consumed by fetchFromHistory; every field may be
absent (undefined in the source). Numeric fields are modelled as
rationals. -/
structure HistoryItem where
  repositoryName : Option String
  githubUrl : Option String
  repositoryOwner : Option String
  generatedAt : Option String
  projectType : Option String
  primaryLanguage : Option String
  frameworks : Option (List String)
  confidence : Option Rat
  processingTime : Option Rat
deriving DecidableEq

/-- Metadata block produced for the preview page. -/
structure PreviewMetadata where
  repoName : Option String
  repoUrl : Option String
  owner : Option String
  generatedAt : Option String
  projectType : Option String
  primaryLanguage : Option String
  frameworks : List String
  confidence : Rat
  processingTime : Rat
deriving DecidableEq

/-- JavaScript numeric disjunction x || d: undefined and zero are
falsy and give the default. -/
def jsOrRat (x : Option Rat) (d : Rat) : Rat :=
  match x with
  | none => d
  | some v => if v = 0 then d else v

/-- JavaScript array disjunction x || d: only an absent array gives
the default (a present array, even empty, is truthy). -/
def jsOrList (x : Option (List String)) (d : List String) : List String :=
  match x with
  | none => d
  | some l => l

/-- Metadata construction of the primary path of fetchFromHistory:
the first six fields pass through, frameworks defaults to the empty
list, confidence and processingTime default to 0. -/
def fetchFromHistoryMetadata (historyItem : HistoryItem) : PreviewMetadata :=
  ⟨historyItem.repositoryName, historyItem.githubUrl, historyItem.repositoryOwner,
   historyItem.generatedAt, historyItem.projectType, historyItem.primaryLanguage,
   jsOrList historyItem.frameworks [], jsOrRat historyItem.confidence 0,
   jsOrRat historyItem.processingTime 0⟩

def sampleAnalysis : Phase3Analysis :=
  ⟨"web_application", 1, "TypeScript", ["React", "Next.js"], 2⟩

def sampleGeneration : READMEGeneration :=
  ⟨1200, ⟨"smart-readme-bucket", "generated-readmes/octo/cat.md"⟩, "2025-06-01T00:00:00Z"⟩

def sampleResult : CompleteResult :=
  ⟨true, "ok", sampleAnalysis, sampleGeneration, ["phase3_analysis"],
   "https://github.com/octo/cat", "2025-06-01T00:00:00Z"⟩

def runningResp : FetchResult := .response true 200 ⟨.running, none, none⟩

def succResp : FetchResult := .response true 200 ⟨.succeeded, some sampleResult, none⟩

def succNoOutputResp : FetchResult := .response true 200 ⟨.succeeded, none, none⟩

def timedOutResp : FetchResult := .response true 200 ⟨.timedOut, none, none⟩

def failedBoomResp : FetchResult := .response true 200 ⟨.failed, none, some "boom"⟩

def http500Resp : FetchResult := .response false 500 ⟨.running, none, none⟩

def pollSuccAfterEmptySucc : Nat → FetchResult :=
  fun i => if i = 0 then succNoOutputResp else succResp

def pollFailAfterEmptySucc : Nat → FetchResult :=
  fun i => if i = 0 then succNoOutputResp else failedBoomResp

def pollSuccAfterHttp500 : Nat → FetchResult :=
  fun i => if i = 0 then http500Resp else succResp

def pollNetErr : Nat → FetchResult := fun _ => .networkError "fetch failed"

def pollRRS : Nat → FetchResult := fun i => if i < 2 then runningResp else succResp

def allRunning : Nat → FetchResult := fun _ => runningResp

def pollSuccAt0 : Nat → FetchResult := fun _ => succResp

def pollFailAt0 : Nat → FetchResult := fun _ => failedBoomResp

def pollTimedAt0 : Nat → FetchResult := fun _ => timedOutResp

/-- Claim C1, as stated, is false on the code: at the default
configuration a first response whose status is the terminal tag
SUCCEEDED but whose result payload is absent does not stop
waitForCompletion — a second status request is issued (the request
count is 2). -/
theorem c1_counterexample :
    pollSuccAfterEmptySucc 0 = .response true 200 ⟨.succeeded, none, none⟩ ∧
    waitForCompletion pollSuccAfterEmptySucc "arn" defaultTimeoutMs defaultPollIntervalMs
      defaultIntervalPos = (.success sampleResult, 2) := by
  refine ⟨by decide, ?_⟩
  show waitLoop pollSuccAfterEmptySucc "arn" defaultTimeoutMs defaultPollIntervalMs
    defaultIntervalPos 0 = (.success sampleResult, 2)
  rw [waitLoop_continue pollSuccAfterEmptySucc "arn" defaultTimeoutMs defaultPollIntervalMs
    defaultIntervalPos 0 (by decide) (by decide)]
  rw [waitLoop_success pollSuccAfterEmptySucc "arn" defaultTimeoutMs defaultPollIntervalMs
    defaultIntervalPos 1 200 sampleResult none (by decide) (by decide)]

/-- Claim C1 (amended): in waitForCompletion at the default
configuration, once a response that stops the loop is observed (FAILED,
TIMED_OUT, SUCCEEDED with a present result payload, or a failed status
request) no further status requests are issued for that handle: every
request other than the last one was answered by a response the loop
continues on (RUNNING, or SUCCEEDED with a missing payload). A
SUCCEEDED status with a missing payload does not stop polling, and
ABORTED is not part of the status type the code models. -/
theorem c1_claim (poll : Nat → FetchResult) (arn : String)
    (hpos : 0 < defaultPollIntervalMs) (j : Nat)
    (hj : j + 1 < (waitForCompletion poll arn defaultTimeoutMs defaultPollIntervalMs hpos).2) :
    respContinues (poll j) = true := by
  have h := waitLoop_requests_continue poll arn hpos maxAttempts 0 (by omega) j
    (by simpa [waitForCompletion] using hj)
  simpa using h

/-- Witness for C1 at the concrete stream RUNNING, RUNNING, SUCCEEDED:
the run issues 3 requests, and the second request (not the last one)
was answered by a continuing response. -/
theorem c1_witness :
    1 + 1 < (waitForCompletion pollRRS "arn" defaultTimeoutMs defaultPollIntervalMs
      defaultIntervalPos).2 ∧
    respContinues (pollRRS 1) = true := by
  have hc : waitForCompletion pollRRS "arn" defaultTimeoutMs defaultPollIntervalMs
      defaultIntervalPos = (.success sampleResult, 3) := by
    show waitLoop pollRRS "arn" defaultTimeoutMs defaultPollIntervalMs defaultIntervalPos 0 =
      (.success sampleResult, 3)
    have h := waitLoop_succ_count pollRRS "arn" defaultIntervalPos sampleResult 2 0 (by decide)
      (by intro i hi; interval_cases i <;> decide) ⟨200, none, by decide⟩
    simpa using h
  exact ⟨by rw [hc]; norm_num,
    c1_claim pollRRS "arn" defaultIntervalPos 1 (by rw [hc]; norm_num)⟩

/-- Claim C2, as stated, is false on the code: a poll response with
the terminal status SUCCEEDED but no result payload does not end the
loop on that iteration — the loop keeps polling and here surfaces the
next iteration FAILED error after a second request. -/
theorem c2_counterexample :
    pollFailAfterEmptySucc 0 = .response true 200 ⟨.succeeded, none, none⟩ ∧
    waitForCompletion pollFailAfterEmptySucc "arn" defaultTimeoutMs defaultPollIntervalMs
      defaultIntervalPos = (.thrown "Pipeline failed: boom", 2) := by
  refine ⟨by decide, ?_⟩
  show waitLoop pollFailAfterEmptySucc "arn" defaultTimeoutMs defaultPollIntervalMs
    defaultIntervalPos 0 = (.thrown "Pipeline failed: boom", 2)
  rw [waitLoop_continue pollFailAfterEmptySucc "arn" defaultTimeoutMs defaultPollIntervalMs
    defaultIntervalPos 0 (by decide) (by decide)]
  rw [waitLoop_failed pollFailAfterEmptySucc "arn" defaultTimeoutMs defaultPollIntervalMs
    defaultIntervalPos 1 200 none (some "boom") (by decide) (by decide)]
  refine Prod.ext ?_ rfl
  show PollOutcome.thrown ("Pipeline failed: " ++ jsOrElse (some "boom") "Unknown error") =
    PollOutcome.thrown "Pipeline failed: boom"
  decide

/-- Claim C2 (amended): within the budget, a SUCCEEDED response with a
present payload ends the loop on that iteration returning the payload;
a FAILED response ends it throwing the remote error message (or the
Unknown error default when the message is absent or empty); a
TIMED_OUT response ends it throwing the remote-timeout error, which is
distinct from the local polling-timeout error. SUCCEEDED without a
payload does not end the loop, and ABORTED is not representable. -/
theorem c2_claim (poll : Nat → FetchResult) (arn : String) (timeoutMs : Int)
    (intervalMs : Nat) (hpos : 0 < intervalMs) (n : Nat)
    (hlt : ((n * intervalMs : Nat) : Int) < timeoutMs) :
    (∀ code p err, poll n = .response true code ⟨.succeeded, some p, err⟩ →
      waitLoop poll arn timeoutMs intervalMs hpos n = (.success p, 1)) ∧
    (∀ code out m, poll n = .response true code ⟨.failed, out, some m⟩ → m ≠ "" →
      waitLoop poll arn timeoutMs intervalMs hpos n = (.thrown ("Pipeline failed: " ++ m), 1)) ∧
    (∀ code out, poll n = .response true code ⟨.failed, out, none⟩ →
      waitLoop poll arn timeoutMs intervalMs hpos n = (.thrown "Pipeline failed: Unknown error", 1)) ∧
    (∀ code out err, poll n = .response true code ⟨.timedOut, out, err⟩ →
      waitLoop poll arn timeoutMs intervalMs hpos n = (.thrown "Pipeline execution timed out", 1)) ∧
    ("Pipeline execution timed out" : String) ≠ "Polling timeout reached" := by
  refine ⟨?_, ?_, ?_, ?_, by decide⟩
  · intro code p err hr
    exact waitLoop_success poll arn timeoutMs intervalMs hpos n code p err hlt hr
  · intro code out m hr hm
    have he : jsOrElse (some m) "Unknown error" = m := by simp [jsOrElse, hm]
    rw [waitLoop_failed poll arn timeoutMs intervalMs hpos n code out (some m) hlt hr, he]
  · intro code out hr
    rw [waitLoop_failed poll arn timeoutMs intervalMs hpos n code out none hlt hr]
    refine Prod.ext ?_ rfl
    show PollOutcome.thrown ("Pipeline failed: " ++ jsOrElse none "Unknown error") =
      PollOutcome.thrown "Pipeline failed: Unknown error"
    decide
  · intro code out err hr
    exact waitLoop_timedOut poll arn timeoutMs intervalMs hpos n code out err hlt hr

/-- Witness for C2: each terminal branch evaluated at a concrete
stream at the default configuration. -/
theorem c2_witness :
    waitLoop pollSuccAt0 "arn" defaultTimeoutMs defaultPollIntervalMs defaultIntervalPos 0 =
      (.success sampleResult, 1) ∧
    waitLoop pollFailAt0 "arn" defaultTimeoutMs defaultPollIntervalMs defaultIntervalPos 0 =
      (.thrown "Pipeline failed: boom", 1) ∧
    waitLoop pollTimedAt0 "arn" defaultTimeoutMs defaultPollIntervalMs defaultIntervalPos 0 =
      (.thrown "Pipeline execution timed out", 1) := by
  refine ⟨?_, ?_, ?_⟩
  · exact (c2_claim pollSuccAt0 "arn" defaultTimeoutMs defaultPollIntervalMs
      defaultIntervalPos 0 (by decide)).1 200 sampleResult none (by decide)
  · exact (c2_claim pollFailAt0 "arn" defaultTimeoutMs defaultPollIntervalMs
      defaultIntervalPos 0 (by decide)).2.1 200 none "boom" (by decide) (by decide)
  · exact (c2_claim pollTimedAt0 "arn" defaultTimeoutMs defaultPollIntervalMs
      defaultIntervalPos 0 (by decide)).2.2.2.1 200 none none (by decide)

/-- Claim C3: for a fixed response sequence whose first k-1 responses
are RUNNING and whose k-th response is SUCCEEDED carrying payload p
(with 1 ≤ k ≤ 24), both pollers issue exactly k status requests and
return p unchanged: waitForCompletion at the default configuration and
pollStatus at its maxAttempts. -/
theorem c3_claim (poll : Nat → FetchResult) (arn : String)
    (hpos : 0 < defaultPollIntervalMs) (p : CompleteResult) (k : Nat)
    (hk1 : 1 ≤ k) (hk : k ≤ maxAttempts)
    (hrun : ∀ i, i < k - 1 → respRunning (poll i) = true)
    (hsucc : respSucceeds (poll (k - 1)) p) :
    waitForCompletion poll arn defaultTimeoutMs defaultPollIntervalMs hpos =
      (.success p, k) ∧
    pollStatus poll arn maxAttempts 0 = (.success p, k) := by
  have hke : k - 1 + 1 = k := by omega
  constructor
  · show waitLoop poll arn defaultTimeoutMs defaultPollIntervalMs hpos 0 = (.success p, k)
    have h := waitLoop_succ_count poll arn hpos p (k - 1) 0 (by omega)
      (fun i hi => by
        rw [Nat.zero_add]
        exact respRunning_continues _ (hrun i hi))
      (by rw [Nat.zero_add]; exact hsucc)
    rw [h, hke]
  · have h := pollStatus_succ_count poll arn p (k - 1) 0 (by omega)
      (fun i hi => by
        rw [Nat.zero_add]
        exact respRunning_continuesPoll _ (hrun i hi))
      (by rw [Nat.zero_add]; exact hsucc)
    rw [h, hke]

/-- Witness for C3 at k = 3 with the stream RUNNING, RUNNING,
SUCCEEDED carrying the sample payload: 3 requests and the payload
returned unchanged by both pollers. -/
theorem c3_witness :
    (1 ≤ 3 ∧ 3 ≤ maxAttempts ∧ (∀ i, i < 3 - 1 → respRunning (pollRRS i) = true) ∧
      respSucceeds (pollRRS (3 - 1)) sampleResult) ∧
    waitForCompletion pollRRS "arn" defaultTimeoutMs defaultPollIntervalMs
      defaultIntervalPos = (.success sampleResult, 3) ∧
    pollStatus pollRRS "arn" maxAttempts 0 = (.success sampleResult, 3) := by
  have h := c3_claim pollRRS "arn" defaultIntervalPos sampleResult 3 (by norm_num)
    (by decide) (by decide) ⟨200, none, by decide⟩
  exact ⟨⟨by norm_num, by decide, by decide, ⟨200, none, by decide⟩⟩, h.1, h.2⟩

/-- Claim C4: if every response through the whole budget is the
non-terminal RUNNING, waitForCompletion at its defaults throws the
locally synthesized polling-timeout error after exactly maxAttempts
(24) requests, and pollStatus throws its own local timeout error after
exactly maxAttempts requests; both local messages are distinct from
the remote-reported timeout message. -/
theorem c4_claim (poll : Nat → FetchResult) (arn : String)
    (hpos : 0 < defaultPollIntervalMs)
    (hrun : ∀ i, i < maxAttempts → respRunning (poll i) = true) :
    waitForCompletion poll arn defaultTimeoutMs defaultPollIntervalMs hpos =
      (.thrown "Polling timeout reached", maxAttempts) ∧
    pollStatus poll arn maxAttempts 0 =
      (.thrown "Generation timeout - please try again", maxAttempts) ∧
    ("Polling timeout reached" : String) ≠ "Pipeline execution timed out" ∧
    ("Generation timeout - please try again" : String) ≠ "Pipeline execution timed out" := by
  refine ⟨?_, ?_, by decide, by decide⟩
  · show waitLoop poll arn defaultTimeoutMs defaultPollIntervalMs hpos 0 =
      (.thrown "Polling timeout reached", maxAttempts)
    exact waitLoop_exhaust poll arn hpos maxAttempts 0 (by omega)
      (fun i hi => by
        rw [Nat.zero_add]
        exact respRunning_continues _ (hrun i hi))
  · exact pollStatus_exhaust poll arn maxAttempts 0 (by omega)
      (fun i hi => by
        rw [Nat.zero_add]
        exact respRunning_continuesPoll _ (hrun i hi))

/-- Witness for C4 at the constant RUNNING stream. -/
theorem c4_witness :
    (∀ i, i < maxAttempts → respRunning (allRunning i) = true) ∧
    waitForCompletion allRunning "arn" defaultTimeoutMs defaultPollIntervalMs
      defaultIntervalPos = (.thrown "Polling timeout reached", maxAttempts) ∧
    pollStatus allRunning "arn" maxAttempts 0 =
      (.thrown "Generation timeout - please try again", maxAttempts) := by
  have h := c4_claim allRunning "arn" defaultIntervalPos (by decide)
  exact ⟨by decide, h.1, h.2.1⟩

/-- Claim C6, as stated, is false on the code: a transient status
request failure (here a 500 response on the first request) is not
treated like a non-terminal response — waitForCompletion aborts the
whole session with the rethrown checkStatus error after that single
request, even though the very next response would have been SUCCEEDED
with a payload. -/
theorem c6_counterexample :
    waitForCompletion pollSuccAfterHttp500 "arn" defaultTimeoutMs defaultPollIntervalMs
      defaultIntervalPos = (.thrown "Status check failed: 500", 1) ∧
    pollSuccAfterHttp500 1 = succResp := by
  refine ⟨?_, by decide⟩
  show waitLoop pollSuccAfterHttp500 "arn" defaultTimeoutMs defaultPollIntervalMs
    defaultIntervalPos 0 = (.thrown "Status check failed: 500", 1)
  have h := waitLoop_error pollSuccAfterHttp500 "arn" defaultTimeoutMs defaultPollIntervalMs
    defaultIntervalPos 0 ("Status check failed: " ++ toString (500 : Nat)) (by decide)
    (by rfl)
  rw [h]
  refine Prod.ext ?_ rfl
  show PollOutcome.thrown ("Status check failed: " ++ toString (500 : Nat)) =
    PollOutcome.thrown "Status check failed: 500"
  decide

/-- Claim C6 (amended): a transient status-request failure is not
tolerated: within the budget, a non-2xx response makes waitForCompletion
abort the session after that single request with the rethrown
status-code error, and a network error makes it abort with the
rethrown fetch error. -/
theorem c6_claim (poll : Nat → FetchResult) (arn : String) (timeoutMs : Int)
    (intervalMs : Nat) (hpos : 0 < intervalMs) (n : Nat)
    (hlt : ((n * intervalMs : Nat) : Int) < timeoutMs) :
    (∀ code body, poll n = .response false code body →
      waitLoop poll arn timeoutMs intervalMs hpos n =
        (.thrown ("Status check failed: " ++ toString code), 1)) ∧
    (∀ m, poll n = .networkError m →
      waitLoop poll arn timeoutMs intervalMs hpos n = (.thrown m, 1)) := by
  constructor
  · intro code body hr
    refine waitLoop_error poll arn timeoutMs intervalMs hpos n _ hlt ?_
    rw [hr]
    simp [checkStatus]
  · intro m hr
    refine waitLoop_error poll arn timeoutMs intervalMs hpos n m hlt ?_
    rw [hr]
    simp [checkStatus]

/-- Witness for C6: the non-2xx case and the network-error case at
concrete streams. -/
theorem c6_witness :
    waitLoop pollSuccAfterHttp500 "arn" defaultTimeoutMs defaultPollIntervalMs
      defaultIntervalPos 0 = (.thrown ("Status check failed: " ++ toString (500 : Nat)), 1) ∧
    waitLoop pollNetErr "arn" defaultTimeoutMs defaultPollIntervalMs defaultIntervalPos 0 =
      (.thrown "fetch failed", 1) := by
  refine ⟨?_, ?_⟩
  · exact (c6_claim pollSuccAfterHttp500 "arn" defaultTimeoutMs defaultPollIntervalMs
      defaultIntervalPos 0 (by decide)).1 500 ⟨.running, none, none⟩ (by decide)
  · exact (c6_claim pollNetErr "arn" defaultTimeoutMs defaultPollIntervalMs
      defaultIntervalPos 0 (by decide)).2 "fetch failed" (by decide)

/-- Claim C5, as stated, is false on the code: the advanced submission
handler trims its input before validating, so an input that fails the
anchored validation pattern only because of leading whitespace is
still submitted (one start request, no ValidationError); and the empty
input is rejected silently, not with a ValidationError. -/
theorem c5_counterexample :
    validateGitHubUrl " https://github.com/octo/cat" = false ∧
    handleSubmit " https://github.com/octo/cat" = .startRequest "https://github.com/octo/cat" ∧
    startRequests (handleSubmit " https://github.com/octo/cat") = 1 ∧
    validateGitHubUrl "" = false ∧
    handleSubmit "" = .silentReturn ∧
    SubmitAction.silentReturn ≠ .validationError "Invalid GitHub URL" := by
  exact ⟨by decide, by decide, by decide, by decide, by decide, by decide⟩

/-- Claim C5 (amended): the READMEGenerator handler validates the raw
input: a non-matching input fails with its validation error and zero
start requests, a matching input issues exactly one start request with
that URL. The advanced handler trims first: an input whose trimmed
form is empty is rejected silently with zero requests; a trimmed input
that fails the pattern gets the validation error and zero requests; a
trimmed input matching the pattern issues exactly one start request
carrying the trimmed URL. -/
theorem c5_claim (url : String) :
    (validateGitHubUrl url = false →
      handleGenerate url = .validationError "Please enter a valid GitHub repository URL" ∧
      startRequests (handleGenerate url) = 0) ∧
    (validateGitHubUrl url = true →
      handleGenerate url = .startRequest url ∧ startRequests (handleGenerate url) = 1) ∧
    (jsTrimStr url = "" →
      handleSubmit url = .silentReturn ∧ startRequests (handleSubmit url) = 0) ∧
    (jsTrimStr url ≠ "" → validateGitHubUrl (jsTrimStr url) = false →
      handleSubmit url = .validationError "Invalid GitHub URL" ∧
      startRequests (handleSubmit url) = 0) ∧
    (validateGitHubUrl (jsTrimStr url) = true →
      handleSubmit url = .startRequest (jsTrimStr url) ∧
      startRequests (handleSubmit url) = 1) := by
  refine ⟨?_, ?_, ?_, ?_, ?_⟩
  · intro hv
    simp [handleGenerate, hv, startRequests]
  · intro hv
    simp [handleGenerate, hv, startRequests]
  · intro he
    simp [handleSubmit, he, startRequests]
  · intro he hv
    simp [handleSubmit, he, hv, startRequests]
  · intro hv
    have he : jsTrimStr url ≠ "" := by
      intro he
      rw [he] at hv
      exact absurd hv (by decide)
    simp [handleSubmit, he, hv, startRequests]

/-- Witness for C5 at a matching URL, a non-matching URL and the empty
input. -/
theorem c5_witness :
    (validateGitHubUrl "https://github.com/octo/cat" = true ∧
      handleGenerate "https://github.com/octo/cat" = .startRequest "https://github.com/octo/cat" ∧
      handleSubmit "https://github.com/octo/cat" = .startRequest "https://github.com/octo/cat" ∧
      startRequests (handleSubmit "https://github.com/octo/cat") = 1) ∧
    (validateGitHubUrl "not-a-url" = false ∧
      handleGenerate "not-a-url" = .validationError "Please enter a valid GitHub repository URL" ∧
      handleSubmit "not-a-url" = .validationError "Invalid GitHub URL" ∧
      startRequests (handleSubmit "not-a-url") = 0) ∧
    (jsTrimStr "" = "" ∧ handleSubmit "" = .silentReturn) := by
  refine ⟨⟨by decide, ?_, ?_, ?_⟩, ⟨by decide, ?_, ?_, ?_⟩, by decide, ?_⟩
  · exact ((c5_claim "https://github.com/octo/cat").2.1 (by decide)).1
  · exact ((c5_claim "https://github.com/octo/cat").2.2.2.2 (by decide)).1
  · exact ((c5_claim "https://github.com/octo/cat").2.2.2.2 (by decide)).2
  · exact ((c5_claim "not-a-url").1 (by decide)).1
  · exact ((c5_claim "not-a-url").2.2.2.1 (by decide) (by decide)).1
  · exact ((c5_claim "not-a-url").2.2.2.1 (by decide) (by decide)).2
  · exact ((c5_claim "").2.2.1 (by decide)).1

/-- Claim C7: the status read is a deterministic, side-effect-free
function of the remote response: in the embedding checkStatus is a
pure function, and its produced ExecutionStatus (status tag, parsed
output payload, error message) does not depend on the execution
handle, so two invocations of the status read against the same fixed
remote response are identical. -/
theorem c7_claim (arn1 arn2 : String) (r : FetchResult) :
    checkStatus arn1 r = checkStatus arn2 r := by
  cases r <;> rfl

/-- Claim C8: the default configuration is a poll interval of 5
seconds (5000 ms), 24 attempts, and a total wait budget of 120 seconds
(120000 ms); the interval times the attempt budget equals the wait
budget, and at the defaults a fully non-terminal run indeed issues
exactly maxAttempts requests before the local timeout. -/
theorem c8_claim :
    defaultPollIntervalMs = 5 * 1000 ∧
    maxAttempts = 24 ∧
    defaultTimeoutMs = 120 * 1000 ∧
    ((maxAttempts * defaultPollIntervalMs : Nat) : Int) = defaultTimeoutMs ∧
    waitForCompletion allRunning "arn" defaultTimeoutMs defaultPollIntervalMs
      defaultIntervalPos = (.thrown "Polling timeout reached", maxAttempts) := by
  refine ⟨by decide, by decide, by decide, by decide, ?_⟩
  show waitLoop allRunning "arn" defaultTimeoutMs defaultPollIntervalMs defaultIntervalPos 0 =
    (.thrown "Polling timeout reached", maxAttempts)
  exact waitLoop_exhaust allRunning "arn" defaultIntervalPos maxAttempts 0 (by omega)
    (fun i hi => (by decide : respContinues runningResp = true))

/-- Claim C9: the history materializer normalizes missing optional
fields to their documented defaults (confidence 0, frameworks empty,
processing time 0) and passes present fields through unchanged; the
plain metadata fields pass through as well. -/
theorem c9_claim (historyItem : HistoryItem) :
    (historyItem.confidence = none → (fetchFromHistoryMetadata historyItem).confidence = 0) ∧
    (∀ v, historyItem.confidence = some v →
      (fetchFromHistoryMetadata historyItem).confidence = v) ∧
    (historyItem.frameworks = none → (fetchFromHistoryMetadata historyItem).frameworks = []) ∧
    (∀ l, historyItem.frameworks = some l →
      (fetchFromHistoryMetadata historyItem).frameworks = l) ∧
    (historyItem.processingTime = none →
      (fetchFromHistoryMetadata historyItem).processingTime = 0) ∧
    (∀ t, historyItem.processingTime = some t →
      (fetchFromHistoryMetadata historyItem).processingTime = t) ∧
    (fetchFromHistoryMetadata historyItem).repoName = historyItem.repositoryName ∧
    (fetchFromHistoryMetadata historyItem).projectType = historyItem.projectType := by
  refine ⟨?_, ?_, ?_, ?_, ?_, ?_, rfl, rfl⟩
  · intro h
    simp [fetchFromHistoryMetadata, jsOrRat, h]
  · intro v h
    simp only [fetchFromHistoryMetadata, jsOrRat, h]
    split
    · next hv => exact hv.symm
    · rfl
  · intro h
    simp [fetchFromHistoryMetadata, jsOrList, h]
  · intro l h
    simp [fetchFromHistoryMetadata, jsOrList, h]
  · intro h
    simp [fetchFromHistoryMetadata, jsOrRat, h]
  · intro t h
    simp only [fetchFromHistoryMetadata, jsOrRat, h]
    split
    · next ht => exact ht.symm
    · rfl

def historyNone : HistoryItem := ⟨none, none, none, none, none, none, none, none, none⟩

def historySome : HistoryItem :=
  ⟨some "cat", some "https://github.com/octo/cat", some "octo", some "2025-06-01",
   some "web_application", some "TypeScript", some ["React"], some (17 / 20), some (5 / 2)⟩

/-- Witness for C9 at an all-absent record and an all-present
record. -/
theorem c9_witness :
    (historyNone.confidence = none ∧ (fetchFromHistoryMetadata historyNone).confidence = 0) ∧
    (historySome.confidence = some (17 / 20) ∧
      (fetchFromHistoryMetadata historySome).confidence = 17 / 20) ∧
    (historyNone.frameworks = none ∧ (fetchFromHistoryMetadata historyNone).frameworks = []) ∧
    (historySome.frameworks = some ["React"] ∧
      (fetchFromHistoryMetadata historySome).frameworks = ["React"]) ∧
    (historyNone.processingTime = none ∧
      (fetchFromHistoryMetadata historyNone).processingTime = 0) ∧
    (historySome.processingTime = some (5 / 2) ∧
      (fetchFromHistoryMetadata historySome).processingTime = 5 / 2) := by
  refine ⟨⟨rfl, ?_⟩, ⟨rfl, ?_⟩, ⟨rfl, ?_⟩, ⟨rfl, ?_⟩, ⟨rfl, ?_⟩, ⟨rfl, ?_⟩⟩
  · exact (c9_claim historyNone).1 rfl
  · exact (c9_claim historySome).2.1 (17 / 20) rfl
  · exact (c9_claim historyNone).2.2.1 rfl
  · exact (c9_claim historySome).2.2.2.1 ["React"] rfl
  · exact (c9_claim historyNone).2.2.2.2.1 rfl
  · exact (c9_claim historySome).2.2.2.2.2.1 (5 / 2) rfl

/-- Claim C10: with a zero or negative wait budget, waitForCompletion
issues zero status requests and fails immediately with the local
polling-timeout error; the model is a pure function, so no other state
is touched. -/
theorem c10_claim (poll : Nat → FetchResult) (arn : String) (timeoutMs : Int)
    (intervalMs : Nat) (hpos : 0 < intervalMs) (hnp : timeoutMs ≤ 0) :
    waitForCompletion poll arn timeoutMs intervalMs hpos =
      (.thrown "Polling timeout reached", 0) := by
  show waitLoop poll arn timeoutMs intervalMs hpos 0 = (.thrown "Polling timeout reached", 0)
  refine waitLoop_budget poll arn timeoutMs intervalMs hpos 0 ?_
  simp only [Nat.zero_mul, Nat.cast_zero]
  omega

/-- Witness for C10 at a negative budget and at a zero budget with a
concrete stream. -/
theorem c10_witness :
    ((-1 : Int) ≤ 0 ∧ waitForCompletion allRunning "arn" (-1) defaultPollIntervalMs
      defaultIntervalPos = (.thrown "Polling timeout reached", 0)) ∧
    ((0 : Int) ≤ 0 ∧ waitForCompletion pollSuccAt0 "arn" 0 defaultPollIntervalMs
      defaultIntervalPos = (.thrown "Polling timeout reached", 0)) := by
  refine ⟨⟨by norm_num, ?_⟩, ⟨le_refl 0, ?_⟩⟩
  · exact c10_claim allRunning "arn" (-1) defaultPollIntervalMs defaultIntervalPos
      (by norm_num)
  · exact c10_claim pollSuccAt0 "arn" 0 defaultPollIntervalMs defaultIntervalPos
      (le_refl 0)
